import Mathlib

/-!
Verification development for the dynamic-filter-app repository.

The repository's core is a small typed rule engine written in TypeScript:
a field schema registry (src/data/fieldDefinitions.ts), a validator
(src/utils/filterValidator.ts, class FilterValidator) and an evaluator
(src/utils/filterEngine.ts, class FilterEngine).  This file embeds those
three components shallowly in Lean.

Modelling decisions (all noted again at the relevant definition):
* JavaScript runtime values are modelled by the inductive `JSValue`.
  `null` and `undefined` are collapsed into one constructor `vNull`;
  the two are distinguished by the source only in positions that are
  unreachable behind earlier truthiness guards.
* JavaScript numbers are modelled as `Option Rat`, with `none` playing
  the role of `NaN`.  Infinities are outside the model; no claim checked
  here depends on them.
* The JavaScript builtins used by the source (`Number`, `String`,
  `Date`, `RegExp`) are modelled by executable Lean functions over the
  fragments the repository actually exercises (decimal numerals,
  ISO `YYYY-MM-DD` dates, a regex subset with grouping, alternation,
  character classes and quantifiers).
* Code positions at which JavaScript would throw a `TypeError`
  (property access / destructuring on `null`/`undefined`) are modelled
  with `Except String`; everything else is a pure function, exactly as
  in the source.
-/

/-- A JavaScript runtime value.  `vNull` stands for both `null` and
`undefined`; `vNum none` is `NaN`. -/
inductive JSValue where
  | vNull
  | vBool (b : Bool)
  | vNum (q : Option Rat)
  | vStr (s : String)
  | vArr (elems : List JSValue)
  | vObj (fields : List (String × JSValue))

/-- `value === null || value === undefined` in the source. -/
def JSValue.isNull : JSValue → Bool
  | .vNull => true
  | _ => false

/-- `Array.isArray(value)`. -/
def JSValue.isArr : JSValue → Bool
  | .vArr _ => true
  | _ => false

/-- `typeof value === 'string'`. -/
def JSValue.isStr : JSValue → Bool
  | .vStr _ => true
  | _ => false

/-- `typeof value === 'object'` for non-null values: true for plain
objects and arrays.  (`typeof null` is also `'object'` in JavaScript,
but every use in the source is behind a `!value` guard.) -/
def JSValue.isObjTypeof : JSValue → Bool
  | .vObj _ => true
  | .vArr _ => true
  | _ => false

/-- The element list of an array value, `[]` otherwise. -/
def JSValue.arrElems : JSValue → List JSValue
  | .vArr xs => xs
  | _ => []

/-- `value.length` for arrays. -/
def JSValue.arrLen (v : JSValue) : Nat := v.arrElems.length

/-- JavaScript truthiness: `Boolean(value)`. -/
def jsTruthy : JSValue → Bool
  | .vNull => false
  | .vBool b => b
  | .vNum none => false
  | .vNum (some q) => decide (q ≠ 0)
  | .vStr s => decide (s ≠ "")
  | .vArr _ => true
  | .vObj _ => true

/-! ### String helpers (structural, so that the kernel can evaluate them) -/

/-- Does the first character list start with the second? -/
def listStarts : List Char → List Char → Bool
  | _, [] => true
  | [], _ :: _ => false
  | a :: as, b :: bs => a == b && listStarts as bs

/-- Substring containment on character lists (`String.prototype.includes`). -/
def listContainsSub : List Char → List Char → Bool
  | [], need => need.isEmpty
  | hay@(_ :: rest), need => listStarts hay need || listContainsSub rest need

/-- `haystack.includes(needle)`. -/
def strContains (hay need : String) : Bool := listContainsSub hay.data need.data

/-- `s.startsWith(t)`. -/
def strStarts (s t : String) : Bool := listStarts s.data t.data

/-- `s.endsWith(t)`. -/
def strEnds (s t : String) : Bool := listStarts s.data.reverse t.data.reverse

/-- `s.toLowerCase()` (ASCII, as exercised by the repository). -/
def strToLower (s : String) : String := ⟨s.data.map Char.toLower⟩

/-- Split a character list at every occurrence of a separator. -/
def splitOnChar (sep : Char) : List Char → List (List Char)
  | [] => [[]]
  | c :: rest =>
    let r := splitOnChar sep rest
    if c == sep then [] :: r
    else
      match r with
      | h :: t => (c :: h) :: t
      | [] => [[c]]

/-- ASCII whitespace test used by `String.prototype.trim`. -/
def isWsChar (c : Char) : Bool := c == ' ' || c == '\t' || c == '\n' || c == '\r'

/-- `s.trim()` on character lists. -/
def trimChars (l : List Char) : List Char :=
  ((l.dropWhile isWsChar).reverse.dropWhile isWsChar).reverse

/-- Numeric value of a digit list, most significant first. -/
def digitsVal (l : List Char) : Nat := l.foldl (fun a c => a * 10 + (c.toNat - 48)) 0

/-- Decimal digits of a natural number (with explicit fuel so that the
recursion is structural and kernel-reducible). -/
def natDigits : Nat → Nat → List Char
  | 0, _ => []
  | fuel + 1, n =>
    if n < 10 then [Char.ofNat (48 + n)]
    else natDigits fuel (n / 10) ++ [Char.ofNat (48 + n % 10)]

/-- Decimal rendering of a natural number. -/
def natToStr (n : Nat) : String := ⟨natDigits (n + 1) n⟩

/-- Decimal rendering of an integer. -/
def intToStr (i : Int) : String :=
  if i < 0 then ⟨'-' :: (natToStr i.natAbs).data⟩ else natToStr i.natAbs

/-- Comma-join, as in `Array.prototype.toString`. -/
def joinComma : List String → String
  | [] => ""
  | [s] => s
  | s :: rest => s ++ "," ++ joinComma rest

/-! ### The `Number` builtin -/

/-- Split a character list at the first `'.'`. -/
def splitFrac : List Char → List Char × Option (List Char)
  | [] => ([], none)
  | '.' :: rest => ([], some rest)
  | c :: rest =>
    let (a, b) := splitFrac rest
    (c :: a, b)

/-- `Number(string)`: models the decimal-numeral fragment of the
JavaScript numeric parser ("", optional sign, digits with an optional
fraction).  Exponent and hexadecimal forms as well as `Infinity` are
outside the model; they are nowhere exercised by the claims. -/
def strToNumber (s : String) : Option Rat :=
  let t := trimChars s.data
  if t.isEmpty then some 0
  else
    let signBody : Bool × List Char :=
      match t with
      | '-' :: rest => (true, rest)
      | '+' :: rest => (false, rest)
      | l => (false, l)
    let neg := signBody.1
    let body := signBody.2
    match splitFrac body with
    | (ip, none) =>
      if ip.isEmpty then none
      else if ip.all Char.isDigit then
        let v : Rat := (digitsVal ip : Nat)
        some (if neg then -v else v)
      else none
    | (ip, some fp) =>
      if ip.isEmpty && fp.isEmpty then none
      else if ip.all Char.isDigit && fp.all Char.isDigit then
        let v : Rat := (digitsVal ip : Nat) + (digitsVal fp : Nat) / ((10 : Rat) ^ fp.length)
        some (if neg then -v else v)
      else none

/-- `Number(value)` on non-array values.  `Number(null)` is `0` in
JavaScript while `Number(undefined)` is `NaN`; since both are collapsed
into `vNull` the model picks `NaN` — every use in the source is behind
a null/emptiness guard, so no checked claim depends on the choice. -/
def scalarToNumber : JSValue → Option Rat
  | .vNull => none
  | .vBool b => some (if b then 1 else 0)
  | .vNum q => q
  | .vStr s => strToNumber s
  | _ => none

/-- `Number(value)`.  An array converts through its string form; the
model covers the empty and singleton cases and treats longer arrays as
`NaN`, which matches JavaScript for the values the repository handles. -/
def jsToNumber : JSValue → Option Rat
  | .vArr [] => some 0
  | .vArr [x] => scalarToNumber x
  | .vArr _ => none
  | v => scalarToNumber v

/-- String form of a modelled number.  Integral values render exactly as
in JavaScript; non-integral rationals use a `num/den` form (no claim
stringifies a non-integral number). -/
def numToString : Option Rat → String
  | none => "NaN"
  | some q => if q.den = 1 then intToStr q.num else intToStr q.num ++ "/" ++ natToStr q.den

/-- `String(value)` for the elements of an array (JavaScript renders
`null`/`undefined` inside an array as the empty string; nested arrays
are approximated by the empty string and are nowhere exercised). -/
def scalarToString : JSValue → String
  | .vNull => ""
  | .vBool b => if b then "true" else "false"
  | .vNum q => numToString q
  | .vStr s => s
  | .vArr _ => ""
  | .vObj _ => "[object Object]"

/-- `String(value)`. -/
def jsToString : JSValue → String
  | .vNull => "null"
  | .vBool b => if b then "true" else "false"
  | .vNum q => numToString q
  | .vStr s => s
  | .vArr xs => joinComma (xs.map scalarToString)
  | .vObj _ => "[object Object]"

/-! ### NaN-aware numeric comparisons (`a op Number(x)` in the source:
any comparison with `NaN` is false) -/

def ratEqOpt (a : Rat) : Option Rat → Bool
  | some b => a == b
  | none => false

def ratGtOpt (a : Rat) : Option Rat → Bool
  | some b => decide (b < a)
  | none => false

def ratLtOpt (a : Rat) : Option Rat → Bool
  | some b => decide (a < b)
  | none => false

def ratGeOpt (a : Rat) : Option Rat → Bool
  | some b => decide (b ≤ a)
  | none => false

def ratLeOpt (a : Rat) : Option Rat → Bool
  | some b => decide (a ≤ b)
  | none => false

/-! ### The `Date` builtin (the ISO `YYYY-MM-DD` fragment) -/

/-- Gregorian leap-year test. -/
def isLeapYear (y : Nat) : Bool := y % 4 == 0 && (y % 100 != 0 || y % 400 == 0)

/-- Days in a month. -/
def daysInMonth (y m : Nat) : Nat :=
  if m == 2 then (if isLeapYear y then 29 else 28)
  else if m == 4 || m == 6 || m == 9 || m == 11 then 30
  else 31

/-- Days since the Unix epoch of a civil date (standard civil-from-days
algorithm). -/
def daysFromCivil (y : Int) (m d : Nat) : Int :=
  let y' : Int := if m ≤ 2 then y - 1 else y
  let era : Int := (if y' ≥ 0 then y' else y' - 399) / 400
  let yoe : Nat := (y' - era * 400).toNat
  let mp : Nat := (m + 9) % 12
  let doy : Nat := (153 * mp + 2) / 5 + d - 1
  let doe : Nat := yoe * 365 + yoe / 4 - yoe / 100 + doy
  era * 146097 + (doe : Int) - 719468

/-- Parse an ISO `YYYY-MM-DD` date to its epoch-millisecond value.
JavaScript rejects out-of-range components of an ISO date
(`new Date("2020-02-30")` is an Invalid Date), which the model mirrors. -/
def parseIsoDateChars (l : List Char) : Option Rat :=
  match splitOnChar '-' l with
  | [ys, ms, ds] =>
    if ys.length == 4 && ms.length == 2 && ds.length == 2
        && ys.all Char.isDigit && ms.all Char.isDigit && ds.all Char.isDigit then
      let y := digitsVal ys
      let m := digitsVal ms
      let d := digitsVal ds
      if 1 ≤ m ∧ m ≤ 12 ∧ 1 ≤ d ∧ d ≤ daysInMonth y m then
        some ((daysFromCivil (Int.ofNat y) m d : Rat) * 86400000)
      else none
    else none
  | _ => none

/-- `new Date(value).getTime()`, `none` for an Invalid Date.  Strings are
modelled over the ISO date fragment; a numeric argument is an epoch
millisecond count; `new Date(null)` is the epoch in JavaScript but
`vNull` collapses `null` with `undefined` (Invalid Date) — every use in
the source sits behind a truthiness or validation guard. -/
def jsDateOf : JSValue → Option Rat
  | .vNull => none
  | .vBool b => some (if b then 1 else 0)
  | .vNum q => q
  | .vStr s => parseIsoDateChars (trimChars s.data)
  | _ => none

/-- Calendar-day number of an epoch-millisecond instant, modelling the
`toDateString()` comparison (UTC; the source compares local dates, and
no checked claim distinguishes time zones). -/
def dayNum (ms : Rat) : Int := ⌊ms / 86400000⌋

/-! ### The `RegExp` builtin (a compiled-subset model)

The source compiles the filter string with `new RegExp(pattern, 'i')`
inside `try`/`catch` and calls `.test` on the record string.  The model
implements a regex subset — literals, `.`, escapes, grouping,
alternation, character classes and the `*`/`+`/`?` quantifiers — with a
recursive-descent parser (failing exactly where the subset's syntax is
violated, e.g. an unclosed group) and a Brzozowski-derivative matcher.
The `'i'` flag is modelled by lowercasing both pattern and subject. -/

inductive RegexAst where
  | rnone
  | reps
  | rchar (c : Char)
  | rany
  | rseq (a b : RegexAst)
  | ralt (a b : RegexAst)
  | rstar (a : RegexAst)

/-- Does the regex accept the empty string? -/
def rnullable : RegexAst → Bool
  | .rnone => false
  | .reps => true
  | .rchar _ => false
  | .rany => false
  | .rseq a b => rnullable a && rnullable b
  | .ralt a b => rnullable a || rnullable b
  | .rstar _ => true

/-- Brzozowski derivative with respect to one character. -/
def rderiv : RegexAst → Char → RegexAst
  | .rnone, _ => .rnone
  | .reps, _ => .rnone
  | .rchar a, c => if a == c then .reps else .rnone
  | .rany, _ => .reps
  | .rseq a b, c =>
    if rnullable a then .ralt (.rseq (rderiv a c) b) (rderiv b c)
    else .rseq (rderiv a c) b
  | .ralt a b, c => .ralt (rderiv a c) (rderiv b c)
  | .rstar a, c => .rseq (rderiv a c) (.rstar a)

/-- Does the regex match some prefix of the character list? -/
def rmatchesPfx (r : RegexAst) : List Char → Bool
  | [] => rnullable r
  | c :: rest => rnullable r || rmatchesPfx (rderiv r c) rest

/-- `regex.test(s)`: does the regex match anywhere in the string? -/
def rtest (r : RegexAst) : List Char → Bool
  | [] => rmatchesPfx r []
  | l@(_ :: rest) => rmatchesPfx r l || rtest r rest

/-- Apply trailing `*`, `+`, `?` quantifiers to a parsed base. -/
def parseQuants (r : RegexAst) : List Char → RegexAst × List Char
  | '*' :: rest => parseQuants (.rstar r) rest
  | '+' :: rest => parseQuants (.rseq r (.rstar r)) rest
  | '?' :: rest => parseQuants (.ralt r .reps) rest
  | rest => (r, rest)

/-- Scan a character class up to the closing bracket; `none` when the
class is never closed (an invalid pattern). -/
def scanClass : List Char → Option (List Char × List Char)
  | [] => none
  | ']' :: rest => some ([], rest)
  | c :: rest =>
    match scanClass rest with
    | some (cls, after) => some (c :: cls, after)
    | none => none

/-- A character class as an alternation of its literal members (ranges
and negation are approximated as literals; no claim exercises them). -/
def classToRegex : List Char → RegexAst
  | [] => .rnone
  | [c] => .rchar c
  | c :: rest => .ralt (.rchar c) (classToRegex rest)

mutual

/-- Alternation level of the pattern grammar. -/
def parseAlt : Nat → List Char → Option (RegexAst × List Char)
  | 0, _ => none
  | fuel + 1, input =>
    match parseSeq fuel input with
    | none => none
    | some (r1, rest) =>
      match rest with
      | '|' :: rest2 =>
        match parseAlt fuel rest2 with
        | some (r2, rest3) => some (.ralt r1 r2, rest3)
        | none => none
      | _ => some (r1, rest)

/-- Concatenation level: zero or more atoms. -/
def parseSeq : Nat → List Char → Option (RegexAst × List Char)
  | 0, _ => none
  | fuel + 1, input =>
    match parseAtom fuel input with
    | none => some (.reps, input)
    | some (r1, rest) =>
      match parseSeq fuel rest with
      | some (r2, rest2) => some (.rseq r1 r2, rest2)
      | none => none

/-- One atom with its quantifiers. -/
def parseAtom : Nat → List Char → Option (RegexAst × List Char)
  | 0, _ => none
  | fuel + 1, input =>
    match parseBase fuel input with
    | some (r, rest) => some (parseQuants r rest)
    | none => none

/-- A base: group, class, escape, dot or literal. -/
def parseBase : Nat → List Char → Option (RegexAst × List Char)
  | 0, _ => none
  | fuel + 1, input =>
    match input with
    | [] => none
    | '(' :: rest =>
      match parseAlt fuel rest with
      | some (r, ')' :: rest2) => some (r, rest2)
      | _ => none
    | ')' :: _ => none
    | '|' :: _ => none
    | '*' :: _ => none
    | '+' :: _ => none
    | '?' :: _ => none
    | '[' :: rest =>
      match scanClass rest with
      | some (cls, after) => some (classToRegex cls, after)
      | none => none
    | '\\' :: c :: rest => some (.rchar c, rest)
    | '\\' :: [] => none
    | '.' :: rest => some (.rany, rest)
    | c :: rest => some (.rchar c, rest)

end

/-- `new RegExp(pattern)` over the modelled subset: `none` models the
constructor throwing a `SyntaxError`. -/
def compileRegex (pattern : List Char) : Option RegexAst :=
  match parseAlt (4 * pattern.length + 16) pattern with
  | some (r, []) => some r
  | _ => none

/-! ### SameValueZero equality (`Array.prototype.includes`) -/

/-- The equality used by `includes`: strict equality except that `NaN`
matches `NaN`.  Distinct arrays and objects compare by reference in
JavaScript, modelled as never equal (the filter payloads the repository
compares are scalars). -/
def jsSameValueZero : JSValue → JSValue → Bool
  | .vNull, .vNull => true
  | .vBool a, .vBool b => a == b
  | .vNum (some a), .vNum (some b) => a == b
  | .vNum none, .vNum none => true
  | .vStr a, .vStr b => a == b
  | _, _ => false

/-- `arr.includes(v)`. -/
def jsIncludes (arr : List JSValue) (v : JSValue) : Bool :=
  arr.any (fun x => jsSameValueZero x v)

/-! ### Field schema registry (src/data/fieldDefinitions.ts) -/

/-- A field definition from the registry. -/
structure FieldDefinition where
  key : String
  label : String
  type : String
  operators : List String
  options : List (String × String) := []
  nestedKey : Option String := none

/-- The `fieldDefinitions` array, verbatim from the source. -/
def fieldDefinitions : List FieldDefinition :=
  [ { key := "name", label := "Name", type := "text",
      operators := ["equals", "contains", "startsWith", "endsWith", "notContains", "regex"] },
    { key := "email", label := "Email", type := "text",
      operators := ["equals", "contains", "endsWith", "regex"] },
    { key := "department", label := "Department", type := "singleSelect",
      operators := ["is", "isNot"],
      options := [("Engineering", "Engineering"), ("Product", "Product"), ("Sales", "Sales"),
        ("Marketing", "Marketing"), ("Design", "Design"), ("Finance", "Finance"),
        ("HR", "HR"), ("Operations", "Operations"), ("Legal", "Legal")] },
    { key := "role", label := "Role", type := "text",
      operators := ["equals", "contains"] },
    { key := "salary", label := "Salary", type := "amount",
      operators := ["equals", "between", "greaterThan", "lessThan"] },
    { key := "joinDate", label := "Join Date", type := "date",
      operators := ["equals", "before", "after", "between"] },
    { key := "isActive", label := "Active Status", type := "boolean",
      operators := ["is"] },
    { key := "skills", label := "Skills", type := "multiSelect",
      operators := ["in", "notIn", "containsAll"],
      options := [("React", "React"), ("TypeScript", "TypeScript"), ("Node.js", "Node.js"),
        ("Python", "Python"), ("GraphQL", "GraphQL"), ("PostgreSQL", "PostgreSQL"),
        ("AWS", "AWS"), ("Docker", "Docker"), ("Kubernetes", "Kubernetes"),
        ("Vue.js", "Vue.js"), ("Angular", "Angular"), ("Java", "Java"),
        ("Go", "Go"), ("Scala", "Scala"), ("Machine Learning", "Machine Learning")] },
    { key := "address.city", label := "City", type := "text",
      operators := ["equals", "contains"], nestedKey := some "address.city" },
    { key := "address.state", label := "State", type := "singleSelect",
      operators := ["is", "isNot"],
      options := [("CA", "CA"), ("NY", "NY"), ("TX", "TX"), ("WA", "WA"), ("MA", "MA"),
        ("OR", "OR"), ("CO", "CO"), ("FL", "FL"), ("IL", "IL"), ("GA", "GA"),
        ("AZ", "AZ"), ("DC", "DC"), ("NV", "NV"), ("NC", "NC")] },
    { key := "projects", label := "Number of Projects", type := "number",
      operators := ["equals", "greaterThan", "lessThan", "greaterThanOrEqual", "lessThanOrEqual", "between"] },
    { key := "lastReview", label := "Last Review Date", type := "date",
      operators := ["equals", "before", "after", "between"] },
    { key := "performanceRating", label := "Performance Rating", type := "number",
      operators := ["equals", "greaterThan", "lessThan", "greaterThanOrEqual", "lessThanOrEqual", "between"] } ]

/-- A filter condition (src/types/index.ts, interface FilterCondition).
`fieldType` and `operator` are strings, as they are at the JavaScript
runtime — the evaluator's `default` branches depend on that. -/
structure FilterCondition where
  id : String
  field : String
  fieldType : String
  operator : String
  value : JSValue
  nestedKey : Option String := none
  logicalOperator : Option String := none

/-- A validation error (src/utils/filterValidator.ts, interface
ValidationError).  The source returns an object with exactly one of the
keys `field`, `operator`, `value`, `general` set; the embedding makes
the active key a constructor tag. -/
inductive ValidationError where
  | fieldErr (msg : String)
  | operatorErr (msg : String)
  | valueErr (msg : String)
  | generalErr (msg : String)
deriving DecidableEq

/-! ### Value accessor (getNestedValue in src/data/fieldDefinitions.ts) -/

/-- Lookup of an own property in an object's field list. -/
def lookupField : List (String × JSValue) → List Char → Option JSValue
  | [], _ => none
  | (k, v) :: rest, key => if k.data == key then some v else lookupField rest key

/-- One step of `current?.[prop]`: optional chaining never throws, it
yields `undefined` on `null`/`undefined` and on missing properties. -/
def jsOptProp (v : JSValue) (prop : List Char) : JSValue :=
  match v with
  | .vObj fields => (lookupField fields prop).getD .vNull
  | _ => .vNull

/-- `getNestedValue(obj, path)`: split the path on dots and chase it
with optional chaining. -/
def getNestedValue (record : JSValue) (path : String) : JSValue :=
  (splitOnChar '.' path.data).foldl jsOptProp record

/-- Plain property access / destructuring member read on a value that is
known non-null (`const { min, max } = value` after the object check in
the validator): total, `undefined` when absent. -/
def getMember (v : JSValue) (k : String) : JSValue :=
  match v with
  | .vObj fields => (lookupField fields k.data).getD .vNull
  | _ => .vNull

/-- Property access that models the JavaScript `TypeError` on
`null`/`undefined` (`filterValue.from`, `const { min, max } = filterValue`
in the evaluator, where no guard precedes it). -/
def jsProp (v : JSValue) (k : String) : Except String JSValue :=
  match v with
  | .vNull => .error "TypeError: cannot read properties of null or undefined"
  | .vObj fields => .ok ((lookupField fields k.data).getD .vNull)
  | _ => .ok .vNull

/-! ### Validator (src/utils/filterValidator.ts, FilterValidator) -/

/-- `v === ''` (strict equality with the empty string). -/
def JSValue.isEmptyStr : JSValue → Bool
  | .vStr "" => true
  | _ => false

/-- `v === '' || v === undefined || v === null`, the presence test the
validator applies to the members of a between range. -/
def isEmptyStrOrNull (v : JSValue) : Bool := v.isEmptyStr || v.isNull

/-- The `switch (fieldType)` body of `FilterValidator.validateValue`. -/
def validateValueShape (fieldType op : String) (value : JSValue) : Option ValidationError :=
  if fieldType = "text" then
    if jsTruthy value && !value.isStr then some (.valueErr "Text value must be a string")
    else none
  else if fieldType = "number" ∨ fieldType = "amount" then
    if op = "between" then
      if !jsTruthy value || !value.isObjTypeof then some (.valueErr "Range values are required")
      else
        let minv := getMember value "min"
        let maxv := getMember value "max"
        if isEmptyStrOrNull minv then some (.valueErr "Minimum value is required")
        else if isEmptyStrOrNull maxv then some (.valueErr "Maximum value is required")
        else
          match jsToNumber minv with
          | none => some (.valueErr "Minimum value must be a valid number")
          | some minN =>
            match jsToNumber maxv with
            | none => some (.valueErr "Maximum value must be a valid number")
            | some maxN =>
              if maxN < minN then some (.valueErr "Minimum value cannot be greater than maximum value")
              else none
    else
      if isEmptyStrOrNull value then some (.valueErr "Number value is required")
      else
        match jsToNumber value with
        | none => some (.valueErr "Value must be a valid number")
        | some _ => none
  else if fieldType = "date" then
    if op = "between" then
      if !jsTruthy value || !value.isObjTypeof then some (.valueErr "Date range is required")
      else
        let fromV := getMember value "from"
        let toV := getMember value "to"
        if !jsTruthy fromV || fromV.isEmptyStr then some (.valueErr "Start date is required")
        else if !jsTruthy toV || toV.isEmptyStr then some (.valueErr "End date is required")
        else
          match jsDateOf fromV with
          | none => some (.valueErr "Start date is invalid")
          | some fromD =>
            match jsDateOf toV with
            | none => some (.valueErr "End date is invalid")
            | some toD =>
              if toD < fromD then some (.valueErr "Start date cannot be after end date")
              else none
    else
      if !jsTruthy value || value.isEmptyStr then some (.valueErr "Date is required")
      else
        match jsDateOf value with
        | none => some (.valueErr "Invalid date")
        | some _ => none
  else if fieldType = "singleSelect" then
    if !jsTruthy value || value.isEmptyStr then some (.valueErr "Please select an option")
    else none
  else if fieldType = "multiSelect" then
    if !value.isArr || value.arrLen = 0 then some (.valueErr "Please select at least one option")
    else none
  else if fieldType = "boolean" then
    if value.isNull then some (.valueErr "Please select a value")
    else none
  else none

/-- `FilterValidator.validateValue`: the leading presence check
(`if (!value && operator !== 'is')`), falling through to the type
switch when it does not return. -/
def validateValue (fieldType op : String) (value : JSValue) : Option ValidationError :=
  if !jsTruthy value && op ≠ "is" then
    if fieldType = "multiSelect" then
      if !value.isArr || value.arrLen = 0 then some (.valueErr "Please select at least one value")
      else validateValueShape fieldType op value
    else if fieldType ≠ "boolean" then some (.valueErr "Value is required")
    else validateValueShape fieldType op value
  else validateValueShape fieldType op value

/-- `FilterValidator.validateCondition`: field presence, operator
presence, registry lookup, operator legality, then value validation —
in the source's order. -/
def validateCondition (c : FilterCondition) : Option ValidationError :=
  if c.field = "" then some (.fieldErr "Please select a field")
  else if c.operator = "" then some (.operatorErr "Please select an operator")
  else
    match fieldDefinitions.find? (fun f => f.key == c.field) with
    | none => some (.fieldErr "Invalid field selected")
    | some fieldDef =>
      if !(fieldDef.operators.contains c.operator) then
        some (.operatorErr "Invalid operator for this field type")
      else validateValue c.fieldType c.operator c.value

/-! ### Evaluator (src/utils/filterEngine.ts, FilterEngine) -/

/-- `FilterEngine.evaluateTextFilter`.  The record value and the filter
value are lowercased for every operator; the regex operator compiles the
(lowercased) filter inside `try`/`catch` — a failed compilation yields
`false` — and tests the record string, with the `'i'` flag modelled by
lowercasing the subject. -/
def evaluateTextFilter (value : JSValue) (op : String) (filterValue : JSValue) : Bool :=
  if value.isNull then false
  else
    let strValue := strToLower (jsToString value)
    let strFilter := strToLower (jsToString filterValue)
    if op = "equals" then strValue == strFilter
    else if op = "contains" then strContains strValue strFilter
    else if op = "startsWith" then strStarts strValue strFilter
    else if op = "endsWith" then strEnds strValue strFilter
    else if op = "notContains" then !(strContains strValue strFilter)
    else if op = "regex" then
      match compileRegex strFilter.data with
      | some r => rtest r (strToLower (jsToString value)).data
      | none => false
    else true

/-- `FilterEngine.evaluateNumberFilter`.  The only place the function
can throw is the `between` branch's destructuring of `filterValue`,
modelled by `jsProp`; everything else is pure. -/
def evaluateNumberFilter (value : JSValue) (op : String) (filterValue : JSValue) :
    Except String Bool :=
  if value.isNull then .ok false
  else
    match jsToNumber value with
    | none => .ok false
    | some numValue =>
      if op = "equals" then .ok (ratEqOpt numValue (jsToNumber filterValue))
      else if op = "greaterThan" then .ok (ratGtOpt numValue (jsToNumber filterValue))
      else if op = "lessThan" then .ok (ratLtOpt numValue (jsToNumber filterValue))
      else if op = "greaterThanOrEqual" then .ok (ratGeOpt numValue (jsToNumber filterValue))
      else if op = "lessThanOrEqual" then .ok (ratLeOpt numValue (jsToNumber filterValue))
      else if op = "between" then
        match jsProp filterValue "min", jsProp filterValue "max" with
        | .ok minv, .ok maxv =>
          .ok (ratGeOpt numValue (jsToNumber minv) && ratLeOpt numValue (jsToNumber maxv))
        | .error e, _ => .error e
        | _, .error e => .error e
      else .ok true

/-- `FilterEngine.evaluateDateFilter`.  As in the source, the record
value is guarded by `if (!value)` (truthiness, not only null), and the
`between` branch reads `filterValue.from` / `filterValue.to` without a
guard, which throws on a null filter value. -/
def evaluateDateFilter (value : JSValue) (op : String) (filterValue : JSValue) :
    Except String Bool :=
  if !jsTruthy value then .ok false
  else
    match jsDateOf value with
    | none => .ok false
    | some date =>
      if op = "equals" then
        .ok (match jsDateOf filterValue with
          | some fd => dayNum date == dayNum fd
          | none => false)
      else if op = "before" then
        .ok (match jsDateOf filterValue with
          | some fd => decide (date < fd)
          | none => false)
      else if op = "after" then
        .ok (match jsDateOf filterValue with
          | some fd => decide (fd < date)
          | none => false)
      else if op = "between" then
        match jsProp filterValue "from", jsProp filterValue "to" with
        | .ok fromV, .ok toV =>
          .ok (ratGeOpt date (jsDateOf fromV) && ratLeOpt date (jsDateOf toV))
        | .error e, _ => .error e
        | _, .error e => .error e
      else .ok true

/-- `FilterEngine.evaluateAmountFilter` delegates to the number filter. -/
def evaluateAmountFilter (value : JSValue) (op : String) (filterValue : JSValue) :
    Except String Bool :=
  evaluateNumberFilter value op filterValue

/-- `FilterEngine.evaluateSelectFilter`: a missing record value returns
`operator === 'isNot'`; otherwise string equality, negated for any
operator other than `is`. -/
def evaluateSelectFilter (value : JSValue) (op : String) (filterValue : JSValue) : Bool :=
  if value.isNull then op == "isNot"
  else
    let m := jsToString value == jsToString filterValue
    if op = "is" then m else !m

/-- The operator switch of `FilterEngine.evaluateMultiSelectFilter`,
after the record value has been coerced to an array. -/
def evaluateMultiSelectOnArr (valueArr : List JSValue) (op : String) (filterValue : JSValue) :
    Bool :=
  let filterArray := match filterValue with
    | .vArr xs => xs
    | v => [v]
  if op = "in" then valueArr.any (fun v => jsIncludes filterArray v)
  else if op = "notIn" then !(valueArr.any (fun v => jsIncludes filterArray v))
  else if op = "containsAll" then filterArray.all (fun f => jsIncludes valueArr f)
  else true

/-- `FilterEngine.evaluateMultiSelectFilter`: a non-array record value
that is falsy returns `operator === 'notIn'`; a truthy non-array value
is wrapped into a singleton array. -/
def evaluateMultiSelectFilter (value : JSValue) (op : String) (filterValue : JSValue) : Bool :=
  if value.isArr then evaluateMultiSelectOnArr value.arrElems op filterValue
  else if !jsTruthy value then op == "notIn"
  else evaluateMultiSelectOnArr [value] op filterValue

/-- `FilterEngine.evaluateBooleanFilter`: record value by truthiness,
filter value by comparing its lowercased string form with "true". -/
def evaluateBooleanFilter (value : JSValue) (_op : String) (filterValue : JSValue) : Bool :=
  let boolValue := jsTruthy value
  let boolFilter := strToLower (jsToString filterValue) == "true"
  boolValue == boolFilter

/-- `FilterEngine.evaluateCondition`: resolve the (possibly nested)
record value, then dispatch on the condition's `fieldType` string; an
unknown field type falls through to `default: return true`. -/
def evaluateCondition (record : JSValue) (c : FilterCondition) : Except String Bool :=
  let fieldKey := match c.nestedKey with
    | some k => if k = "" then c.field else k
    | none => c.field
  let value := getNestedValue record fieldKey
  if c.fieldType = "text" then .ok (evaluateTextFilter value c.operator c.value)
  else if c.fieldType = "number" then evaluateNumberFilter value c.operator c.value
  else if c.fieldType = "date" then evaluateDateFilter value c.operator c.value
  else if c.fieldType = "amount" then evaluateAmountFilter value c.operator c.value
  else if c.fieldType = "singleSelect" then .ok (evaluateSelectFilter value c.operator c.value)
  else if c.fieldType = "multiSelect" then .ok (evaluateMultiSelectFilter value c.operator c.value)
  else if c.fieldType = "boolean" then .ok (evaluateBooleanFilter value c.operator c.value)
  else .ok true

/-- `conditions.every(cb)` under the throwing model: short-circuits on
the first false result, propagates the first thrown error. -/
def everyE {α ε : Type} (p : α → Except ε Bool) : List α → Except ε Bool
  | [] => .ok true
  | x :: xs =>
    match p x with
    | .ok true => everyE p xs
    | .ok false => .ok false
    | .error e => .error e

/-- `conditions.some(cb)` under the throwing model. -/
def someE {α ε : Type} (p : α → Except ε Bool) : List α → Except ε Bool
  | [] => .ok false
  | x :: xs =>
    match p x with
    | .ok true => .ok true
    | .ok false => someE p xs
    | .error e => .error e

/-- `data.filter(cb)` under the throwing model: keeps input order,
propagates the first thrown error. -/
def filterE {α ε : Type} (p : α → Except ε Bool) : List α → Except ε (List α)
  | [] => .ok []
  | x :: xs =>
    match p x with
    | .ok b =>
      match filterE p xs with
      | .ok rest => .ok (if b then x :: rest else rest)
      | .error e => .error e
    | .error e => .error e

/-- `FilterEngine.applyFilters`: identity on an empty condition list,
otherwise a stable filter combining the conditions with `every` (AND)
or `some` (anything else, i.e. OR). -/
def applyFilters (data : List JSValue) (conditions : List FilterCondition)
    (logicalOperator : String) : Except String (List JSValue) :=
  if conditions.length = 0 then .ok data
  else
    filterE (fun record =>
      if logicalOperator = "AND" then
        everyE (fun condition => evaluateCondition record condition) conditions
      else
        someE (fun condition => evaluateCondition record condition) conditions) data

/-! ### Helper lemmas -/

/-- Property access succeeds on any non-null value. -/
theorem jsProp_ok (v : JSValue) (k : String) (h : v.isNull = false) :
    ∃ w, jsProp v k = Except.ok w := by
  cases v with
  | vNull => simp [JSValue.isNull] at h
  | vBool b => exact ⟨_, rfl⟩
  | vNum q => exact ⟨_, rfl⟩
  | vStr s => exact ⟨_, rfl⟩
  | vArr xs => exact ⟨_, rfl⟩
  | vObj fs => exact ⟨_, rfl⟩

/-- The number filter can only throw in the `between` branch, and only
on a null filter value. -/
theorem evaluateNumberFilter_total (v : JSValue) (op : String) (fv : JSValue)
    (h : op = "between" → fv.isNull = false) :
    ∃ b, evaluateNumberFilter v op fv = Except.ok b := by
  unfold evaluateNumberFilter
  by_cases h0 : v.isNull = true
  · rw [if_pos h0]; exact ⟨false, rfl⟩
  rw [if_neg h0]
  split
  · exact ⟨false, rfl⟩
  · by_cases h1 : op = "equals"
    · rw [if_pos h1]; exact ⟨_, rfl⟩
    rw [if_neg h1]
    by_cases h2 : op = "greaterThan"
    · rw [if_pos h2]; exact ⟨_, rfl⟩
    rw [if_neg h2]
    by_cases h3 : op = "lessThan"
    · rw [if_pos h3]; exact ⟨_, rfl⟩
    rw [if_neg h3]
    by_cases h4 : op = "greaterThanOrEqual"
    · rw [if_pos h4]; exact ⟨_, rfl⟩
    rw [if_neg h4]
    by_cases h5 : op = "lessThanOrEqual"
    · rw [if_pos h5]; exact ⟨_, rfl⟩
    rw [if_neg h5]
    by_cases h6 : op = "between"
    · rw [if_pos h6]
      obtain ⟨w1, hw1⟩ := jsProp_ok fv "min" (h h6)
      obtain ⟨w2, hw2⟩ := jsProp_ok fv "max" (h h6)
      rw [hw1, hw2]
      exact ⟨_, rfl⟩
    · rw [if_neg h6]; exact ⟨true, rfl⟩

/-- The date filter can only throw in the `between` branch, and only on
a null filter value. -/
theorem evaluateDateFilter_total (v : JSValue) (op : String) (fv : JSValue)
    (h : op = "between" → fv.isNull = false) :
    ∃ b, evaluateDateFilter v op fv = Except.ok b := by
  unfold evaluateDateFilter
  by_cases h0 : (!jsTruthy v) = true
  · rw [if_pos h0]; exact ⟨false, rfl⟩
  rw [if_neg h0]
  split
  · exact ⟨false, rfl⟩
  · by_cases h1 : op = "equals"
    · rw [if_pos h1]; exact ⟨_, rfl⟩
    rw [if_neg h1]
    by_cases h2 : op = "before"
    · rw [if_pos h2]; exact ⟨_, rfl⟩
    rw [if_neg h2]
    by_cases h3 : op = "after"
    · rw [if_pos h3]; exact ⟨_, rfl⟩
    rw [if_neg h3]
    by_cases h4 : op = "between"
    · rw [if_pos h4]
      obtain ⟨w1, hw1⟩ := jsProp_ok fv "from" (h h4)
      obtain ⟨w2, hw2⟩ := jsProp_ok fv "to" (h h4)
      rw [hw1, hw2]
      exact ⟨_, rfl⟩
    · rw [if_neg h4]; exact ⟨true, rfl⟩

/-- A condition that validates cleanly has a clean value validation. -/
theorem validateValue_of_validateCondition_none (c : FilterCondition)
    (h : validateCondition c = none) :
    validateValue c.fieldType c.operator c.value = none := by
  unfold validateCondition at h
  split at h
  · exact absurd h (by simp)
  split at h
  · exact absurd h (by simp)
  split at h
  · exact absurd h (by simp)
  split at h
  · exact absurd h (by simp)
  exact h

/-- For the numeric and date field types, a value that survives the
validator's `between` checks cannot be null (the presence check catches
every falsy value there). -/
theorem value_notNull_of_validate_between (ft : String) (v : JSValue)
    (hft : ft = "number" ∨ ft = "amount" ∨ ft = "date")
    (hv : validateValue ft "between" v = none) : v.isNull = false := by
  cases v with
  | vNull => rcases hft with h | h | h <;> subst h <;> exact absurd hv (by decide)
  | vBool b => rfl
  | vNum q => rfl
  | vStr s => rfl
  | vArr xs => rfl
  | vObj fs => rfl

/-- `every` returning true on a non-empty list forces `some` to return
true as well (the first callback already answered true). -/
theorem someE_of_everyE_ok_true {α ε : Type} (p : α → Except ε Bool) (l : List α)
    (hne : l ≠ []) (h : everyE p l = Except.ok true) : someE p l = Except.ok true := by
  cases l with
  | nil => exact absurd rfl hne
  | cons x xs =>
    simp only [everyE] at h
    simp only [someE]
    cases hp : p x with
    | error e => rw [hp] at h; exact absurd h (by simp)
    | ok b =>
      rw [hp] at h
      cases b with
      | true => rfl
      | false => exact absurd h (by simp)

/-- A pointwise-stronger predicate filters out a superset: every element
kept by `filterE p` is kept by `filterE q` whenever `p x = ok true`
implies `q x = ok true`. -/
theorem filterE_mono {α ε : Type} (p q : α → Except ε Bool)
    (hpq : ∀ x, p x = Except.ok true → q x = Except.ok true) :
    ∀ (l la lo : List α), filterE p l = Except.ok la → filterE q l = Except.ok lo →
      ∀ y, y ∈ la → y ∈ lo := by
  intro l
  induction l with
  | nil =>
    intro la lo ha ho y hy
    simp only [filterE] at ha ho
    injection ha with ha'
    subst ha'
    exact absurd hy (by simp)
  | cons x xs ih =>
    intro la lo ha ho y hy
    simp only [filterE] at ha ho
    cases hp : p x with
    | error e => rw [hp] at ha; exact absurd ha (by simp)
    | ok b =>
      rw [hp] at ha
      cases hq : q x with
      | error e => rw [hq] at ho; exact absurd ho (by simp)
      | ok bq =>
        rw [hq] at ho
        cases hrp : filterE p xs with
        | error e => rw [hrp] at ha; exact absurd ha (by simp)
        | ok restA =>
          rw [hrp] at ha
          cases hrq : filterE q xs with
          | error e => rw [hrq] at ho; exact absurd ho (by simp)
          | ok restO =>
            rw [hrq] at ho
            injection ha with ha'
            injection ho with ho'
            subst ha'
            subst ho'
            cases b with
            | true =>
              have hbq : Except.ok (ε := ε) bq = Except.ok true := hq.symm.trans (hpq x hp)
              injection hbq with hbq'
              subst hbq'
              simp only [if_pos rfl] at hy ⊢
              cases hy with
              | head => exact List.Mem.head _
              | tail _ hh => exact List.Mem.tail _ (ih restA restO hrp hrq y hh)
            | false =>
              simp only [Bool.false_eq_true, if_false] at hy
              have hmem := ih restA restO hrp hrq y hy
              cases bq with
              | true => exact List.Mem.tail _ hmem
              | false => simpa using hmem

/-! ### Claims -/

/-- Claim C1, counterexample.  A condition whose field is not a key of
the registry but whose operator is empty is reported as an
OperatorError, not a FieldError: the source checks operator presence
before it looks the field up in the registry. -/
theorem c1_counterexample :
    fieldDefinitions.find? (fun f => f.key == "bogus") = none ∧
    validateCondition ⟨"c1", "bogus", "text", "", .vStr "x", none, none⟩ =
      some (.operatorErr "Please select an operator") :=
  ⟨rfl, rfl⟩

/-- Claim C1 (amended): for every condition whose field is non-empty
but not a registry key and whose operator is non-empty, validate
returns a FieldError and never an OperatorError or ValueError.  The
check order in the code is field presence, operator presence, field
existence, operator legality, value shape — so only the empty-operator
case escapes to an OperatorError. -/
theorem c1_unknown_field_gives_fieldError (c : FilterCondition)
    (hf : c.field ≠ "") (hop : c.operator ≠ "")
    (hreg : fieldDefinitions.find? (fun f => f.key == c.field) = none) :
    validateCondition c = some (.fieldErr "Invalid field selected") := by
  unfold validateCondition
  rw [if_neg hf, if_neg hop, hreg]

/-- Witness for C1's amended theorem at field "bogus". -/
theorem c1_witness :
    validateCondition ⟨"c1w", "bogus", "text", "equals", .vStr "x", none, none⟩ =
      some (.fieldErr "Invalid field selected") :=
  c1_unknown_field_gives_fieldError ⟨"c1w", "bogus", "text", "equals", .vStr "x", none, none⟩
    (by decide) (by decide) rfl

/-- Claim C2: a condition that passes validation evaluates to a boolean
on every record — the throwing positions of the evaluator (the between
branches' property reads) are unreachable because the validator forces
a truthy object-shaped value there. -/
theorem c2_valid_condition_matches_total (c : FilterCondition) (record : JSValue)
    (h : validateCondition c = none) :
    ∃ b, evaluateCondition record c = Except.ok b := by
  have hv := validateValue_of_validateCondition_none c h
  unfold evaluateCondition
  by_cases h1 : c.fieldType = "text"
  · rw [if_pos h1]; exact ⟨_, rfl⟩
  rw [if_neg h1]
  by_cases h2 : c.fieldType = "number"
  · rw [if_pos h2]
    apply evaluateNumberFilter_total
    intro hb
    rw [hb] at hv
    exact value_notNull_of_validate_between c.fieldType c.value (Or.inl h2) hv
  rw [if_neg h2]
  by_cases h3 : c.fieldType = "date"
  · rw [if_pos h3]
    apply evaluateDateFilter_total
    intro hb
    rw [hb] at hv
    exact value_notNull_of_validate_between c.fieldType c.value (Or.inr (Or.inr h3)) hv
  rw [if_neg h3]
  by_cases h4 : c.fieldType = "amount"
  · rw [if_pos h4]
    unfold evaluateAmountFilter
    apply evaluateNumberFilter_total
    intro hb
    rw [hb] at hv
    exact value_notNull_of_validate_between c.fieldType c.value (Or.inr (Or.inl h4)) hv
  rw [if_neg h4]
  by_cases h5 : c.fieldType = "singleSelect"
  · rw [if_pos h5]; exact ⟨_, rfl⟩
  rw [if_neg h5]
  by_cases h6 : c.fieldType = "multiSelect"
  · rw [if_pos h6]; exact ⟨_, rfl⟩
  rw [if_neg h6]
  by_cases h7 : c.fieldType = "boolean"
  · rw [if_pos h7]; exact ⟨_, rfl⟩
  rw [if_neg h7]
  exact ⟨true, rfl⟩

/-- Witness for C2: the valid condition "name contains john" evaluates
cleanly on a record. -/
theorem c2_witness :
    ∃ b, evaluateCondition (.vObj [("name", .vStr "John Smith")])
      ⟨"c2w", "name", "text", "contains", .vStr "john", none, none⟩ = Except.ok b :=
  c2_valid_condition_matches_total
    ⟨"c2w", "name", "text", "contains", .vStr "john", none, none⟩
    (.vObj [("name", .vStr "John Smith")]) rfl

/-- Claim C3, counterexample.  The condition declares fieldType
"number" while its field "name" is registered as "text"; the value
"abc" is a perfectly valid text payload, yet validate rejects it with
the numeric ValueError — the value-shape check runs on the condition's
declared fieldType, not on the definition's type. -/
theorem c3_counterexample :
    (fieldDefinitions.find? (fun f => f.key == "name")).map (fun d => d.type) = some "text" ∧
    validateValue "text" "equals" (.vStr "abc") = none ∧
    validateCondition ⟨"c3", "name", "number", "equals", .vStr "abc", none, none⟩ =
      some (.valueErr "Value must be a valid number") :=
  ⟨rfl, rfl, rfl⟩

/-- Claim C3 (amended): once the field resolves and the operator is
legal, validate delegates to the value-shape check with the condition's
declared fieldType — the definition's type is never consulted (there is
no defensive re-check). -/
theorem c3_declared_fieldType_used (c : FilterCondition) (d : FieldDefinition)
    (hf : c.field ≠ "") (hop : c.operator ≠ "")
    (hd : fieldDefinitions.find? (fun f => f.key == c.field) = some d)
    (hleg : d.operators.contains c.operator = true) :
    validateCondition c = validateValue c.fieldType c.operator c.value := by
  unfold validateCondition
  rw [if_neg hf, if_neg hop]
  split
  · next hnone => rw [hd] at hnone; exact absurd hnone (by simp)
  · next fieldDef hsome =>
    rw [hd] at hsome
    injection hsome with hde
    subst hde
    have hb : (!(d.operators.contains c.operator)) = false := by rw [hleg]; rfl
    rw [if_neg (by rw [hb]; exact Bool.false_ne_true)]

/-- Witness for C3's amended theorem: the mismatched condition from the
counterexample is validated exactly as its declared "number" type. -/
theorem c3_witness :
    validateCondition ⟨"c3w", "name", "number", "equals", .vStr "abc", none, none⟩ =
      validateValue "number" "equals" (.vStr "abc") :=
  c3_declared_fieldType_used ⟨"c3w", "name", "number", "equals", .vStr "abc", none, none⟩
    { key := "name", label := "Name", type := "text",
      operators := ["equals", "contains", "startsWith", "endsWith", "notContains", "regex"] }
    (by decide) (by decide) rfl rfl

/-- Claim C4: a condition whose fieldType is none of the seven known
field type strings falls through to the evaluator's default branch and
matches every record unconditionally. -/
theorem c4_unknown_fieldType_matches_all (c : FilterCondition) (record : JSValue)
    (h : c.fieldType ∉ ["text", "number", "date", "amount", "singleSelect", "multiSelect", "boolean"]) :
    evaluateCondition record c = Except.ok true := by
  have h1 : c.fieldType ≠ "text" := fun e => h (by rw [e]; decide)
  have h2 : c.fieldType ≠ "number" := fun e => h (by rw [e]; decide)
  have h3 : c.fieldType ≠ "date" := fun e => h (by rw [e]; decide)
  have h4 : c.fieldType ≠ "amount" := fun e => h (by rw [e]; decide)
  have h5 : c.fieldType ≠ "singleSelect" := fun e => h (by rw [e]; decide)
  have h6 : c.fieldType ≠ "multiSelect" := fun e => h (by rw [e]; decide)
  have h7 : c.fieldType ≠ "boolean" := fun e => h (by rw [e]; decide)
  unfold evaluateCondition
  rw [if_neg h1, if_neg h2, if_neg h3, if_neg h4, if_neg h5, if_neg h6, if_neg h7]

/-- Witness for C4 at the unknown field type "mystery". -/
theorem c4_witness :
    evaluateCondition (.vObj [("name", .vStr "Ada")])
      ⟨"c4w", "name", "mystery", "equals", .vStr "x", none, none⟩ = Except.ok true :=
  c4_unknown_fieldType_matches_all
    ⟨"c4w", "name", "mystery", "equals", .vStr "x", none, none⟩
    (.vObj [("name", .vStr "Ada")]) (by decide)

/-- Claim C5, counterexample.  On a record without the field, the
resolved value is absent and the text evaluator returns false for
Contains and for NotContains alike (the `if (value === null ...)
return false` guard precedes the operator switch), so NotContains is
not the negation of Contains there: both are `.ok false`, while the
negation of Contains would be `.ok true`. -/
theorem c5_counterexample :
    evaluateCondition (.vObj []) ⟨"c5", "name", "text", "notContains", .vStr "a", none, none⟩ =
      Except.ok false ∧
    evaluateCondition (.vObj []) ⟨"c5", "name", "text", "contains", .vStr "a", none, none⟩ =
      Except.ok false :=
  ⟨rfl, rfl⟩

/-- Claim C5 (amended): for records whose resolved value is present
(non-null), NotContains is exactly the boolean negation of Contains;
when the value is absent, both evaluate to false. -/
theorem c5_notContains_negates_contains (value filterValue : JSValue)
    (h : value.isNull = false) :
    evaluateTextFilter value "notContains" filterValue =
      !(evaluateTextFilter value "contains" filterValue) := by
  have h' : ¬(value.isNull = true) := by rw [h]; exact Bool.false_ne_true
  unfold evaluateTextFilter
  rw [if_neg h', if_neg h']
  rfl

/-- Witness for C5's amended theorem on a present record value. -/
theorem c5_witness :
    evaluateTextFilter (.vStr "hello") "notContains" (.vStr "ell") =
      !(evaluateTextFilter (.vStr "hello") "contains" (.vStr "ell")) :=
  c5_notContains_negates_contains (.vStr "hello") (.vStr "ell") rfl

/-- Claim C6: an absent record value satisfies exactly the negative
membership operators — IsNot (true) but not Is (false) for
SingleSelect, and NotIn (true) but not In (false) for MultiSelect,
where for MultiSelect both a missing value and an empty array behave
alike. -/
theorem c6_absence_satisfies_negative_operators (filterValue : JSValue) :
    evaluateSelectFilter .vNull "isNot" filterValue = true ∧
    evaluateSelectFilter .vNull "is" filterValue = false ∧
    evaluateMultiSelectFilter .vNull "notIn" filterValue = true ∧
    evaluateMultiSelectFilter .vNull "in" filterValue = false ∧
    evaluateMultiSelectFilter (.vArr []) "notIn" filterValue = true ∧
    evaluateMultiSelectFilter (.vArr []) "in" filterValue = false :=
  ⟨rfl, rfl, rfl, rfl, rfl, rfl⟩

/-- Claim C7: the code rejects the numeric payload 0.  The leading
presence check `if (!value && operator !== 'is')` treats the falsy
number 0 as missing and returns "Value is required", although 0 parses
as a finite number and the number branch's own presence test
(`value === '' || value === undefined || value === null`) deliberately
admits it — the claim (and the spec) describe the intended behavior,
the outer truthiness guard is the slip. -/
theorem c7_zero_value_rejected :
    validateCondition ⟨"c7", "projects", "number", "equals", .vNum (some 0), none, none⟩ =
      some (.valueErr "Value is required") ∧
    jsToNumber (.vNum (some 0)) = some 0 ∧
    validateValueShape "number" "equals" (.vNum (some 0)) = none :=
  ⟨rfl, rfl, rfl⟩

/-- Claim C8, counterexample.  The falsy scalar 0 is not treated as the
singleton sequence [0]: the evaluator's `if (!value) return operator
=== 'notIn'` intercepts it, so In answers false even though the filter
set contains 0, while on the singleton array [0] In answers true. -/
theorem c8_counterexample :
    evaluateMultiSelectFilter (.vNum (some 0)) "in" (.vArr [.vNum (some 0)]) = false ∧
    evaluateMultiSelectFilter (.vArr [.vNum (some 0)]) "in" (.vArr [.vNum (some 0)]) = true :=
  ⟨rfl, rfl⟩

/-- Claim C8 (amended): a truthy scalar record value is evaluated
exactly as the singleton sequence containing it, for every operator;
falsy scalars (0, false, the empty string, NaN) are instead treated
like absence and satisfy only NotIn. -/
theorem c8_truthy_scalar_singleton (value : JSValue) (op : String) (filterValue : JSValue)
    (h1 : value.isArr = false) (h2 : jsTruthy value = true) :
    evaluateMultiSelectFilter value op filterValue =
      evaluateMultiSelectFilter (.vArr [value]) op filterValue := by
  unfold evaluateMultiSelectFilter
  rw [if_neg (by rw [h1]; exact Bool.false_ne_true)]
  rw [if_neg (by rw [h2]; decide)]
  rfl

/-- Witness for C8's amended theorem at the truthy scalar "React". -/
theorem c8_witness :
    evaluateMultiSelectFilter (.vStr "React") "in" (.vArr [.vStr "React"]) =
      evaluateMultiSelectFilter (.vArr [.vStr "React"]) "in" (.vArr [.vStr "React"]) :=
  c8_truthy_scalar_singleton (.vStr "React") "in" (.vArr [.vStr "React"]) rfl (by decide)

/-- The text evaluator's regex branch on the uncompilable pattern "(":
the compilation failure is caught and every record value answers false. -/
theorem textFilter_invalid_regex_false (v : JSValue) :
    evaluateTextFilter v "regex" (.vStr "(") = false := by
  unfold evaluateTextFilter
  by_cases h : v.isNull = true
  · rw [if_pos h]
  · rw [if_neg h]
    rfl

/-- Claim C9: a Text condition with operator Regex and the
non-compiling pattern "(" evaluates to false for every record (and for
every field name), and never surfaces an error — the failed compilation
is caught inside the text evaluator. -/
theorem c9_invalid_regex_false (record : JSValue) (field : String) :
    evaluateCondition record ⟨"c9", field, "text", "regex", .vStr "(", none, none⟩ =
      Except.ok false := by
  unfold evaluateCondition
  exact congrArg Except.ok (textFilter_invalid_regex_false (getNestedValue record field))

/-- Claim C10: with a non-empty condition list, every record kept by
the AND combination is kept by the OR combination (whenever both runs
complete without a thrown error, which for valid conditions they do
by claim C2's totality argument). -/
theorem c10_and_subset_or (data : List JSValue) (conds : List FilterCondition)
    (hne : conds ≠ []) (la lo : List JSValue)
    (hA : applyFilters data conds "AND" = Except.ok la)
    (hO : applyFilters data conds "OR" = Except.ok lo) :
    ∀ x, x ∈ la → x ∈ lo := by
  have hlen : ¬(conds.length = 0) := fun hh => hne (List.length_eq_zero.mp hh)
  unfold applyFilters at hA hO
  rw [if_neg hlen] at hA hO
  refine filterE_mono _ _ ?_ data la lo hA hO
  intro r hr
  rw [if_pos rfl] at hr
  rw [if_neg (by decide)]
  exact someE_of_everyE_ok_true _ _ hne hr

/-- Witness for C10 on two records and two text conditions: the record
kept by AND is in the OR result. -/
theorem c10_witness :
    JSValue.vObj [("name", JSValue.vStr "Bob")] ∈ [JSValue.vObj [("name", JSValue.vStr "Bob")]] :=
  c10_and_subset_or
    [.vObj [("name", .vStr "Alice")], .vObj [("name", .vStr "Bob")]]
    [⟨"x", "name", "text", "contains", .vStr "o", none, none⟩,
     ⟨"y", "name", "text", "contains", .vStr "b", none, none⟩]
    (by simp) [.vObj [("name", .vStr "Bob")]] [.vObj [("name", .vStr "Bob")]] rfl rfl
    (JSValue.vObj [("name", JSValue.vStr "Bob")]) (List.Mem.head _)
